import Mathlib

/-!
# Shallow embedding of the portfolio site's core logic

This file embeds, in Lean 4, the stateful and pure core of the bilingual
portfolio application: the preference store (theme/language context with
localStorage persistence), the localized-field resolver, the translation
lookup, the slide-repetition utility, the viewport reveal tracker, the
scroll-threshold tracker, and the static project data with its id lookup.
Each definition is translated from the corresponding TypeScript source;
theorems below settle the specification's claims about them.
-/

namespace Portfolio

/-- The two supported languages, `'en' | 'ar'` in the source. -/
inductive Lang
  | en
  | ar
deriving DecidableEq

/-- The two themes, `'light' | 'dark'` in the source. -/
inductive Theme
  | light
  | dark
deriving DecidableEq

/-! ## Preference store (ThemeContext provider)

The provider holds `theme` and `language` React state.  The toggles flip the
respective field; an effect loads persisted values at mount and another
persists them on every change. -/

/-- The in-memory preference state held by the provider (well-typed view,
used for the toggle operations). -/
structure PrefState where
  theme : Theme
  language : Lang
deriving DecidableEq

/-- Embeds `toggleTheme`: `setTheme(prev => prev === 'light' ? 'dark' : 'light')`. -/
def toggleTheme (s : PrefState) : PrefState :=
  { s with theme := if s.theme = Theme.light then Theme.dark else Theme.light }

/-- Embeds `toggleLanguage`: `setLanguage(prev => prev === 'en' ? 'ar' : 'en')`. -/
def toggleLanguage (s : PrefState) : PrefState :=
  { s with language := if s.language = Lang.en then Lang.ar else Lang.en }

/-- Default theme: `useState<'light' | 'dark'>('light')`. -/
def defaultTheme : String := "light"

/-- Default language: `useState<'en' | 'ar'>('en')`. -/
def defaultLanguage : String := "en"

/-- Embeds one load step of the mount effect:
`const saved = localStorage.getItem(k); if (saved) set(saved)`.
`none` models a `null` return of `getItem`; JS truthiness makes the empty
string fall back to the default as well.  Note the source performs no
validation against the enum: any non-empty persisted string is stored. -/
def loadPref (dflt : String) (saved : Option String) : String :=
  match saved with
  | some s => if s = "" then dflt else s
  | none => dflt

/-- The raw (string-typed) in-memory state the mount effect produces from the
two persisted entries, starting from the defaults.  The two fields are
computed independently, exactly as in the source. -/
def initState (savedTheme savedLanguage : Option String) : String × String :=
  (loadPref defaultTheme savedTheme, loadPref defaultLanguage savedLanguage)

/-- Embeds the mount effect against raw storage results.  Each argument is
the result of one `localStorage.getItem` call, `Except.error` modelling a
thrown storage exception (storage disabled).  The source wraps the calls in
no try/catch, so an error short-circuits the effect and propagates. -/
def loadEffect (getTheme getLanguage : Except String (Option String)) :
    Except String (String × String) := do
  let savedTheme ← getTheme
  let savedLanguage ← getLanguage
  pure (initState savedTheme savedLanguage)

/-- The in-memory state after the mount effect runs: both `getItem` calls
happen before either state update, so a thrown read leaves the state at the
defaults. -/
def stateAfterLoad (getTheme getLanguage : Except String (Option String)) :
    String × String :=
  match loadEffect getTheme getLanguage with
  | .ok s => s
  | .error _ => (defaultTheme, defaultLanguage)

/-- Embeds the persisting part of the change effect:
`localStorage.setItem('theme', theme); localStorage.setItem('language', language)`,
each argument the raw result of one `setItem` call.  No try/catch in the
source: a thrown write propagates and skips the second write. -/
def persistEffect (setThemeItem setLanguageItem : Except String Unit) :
    Except String Unit := do
  setThemeItem
  setLanguageItem

/-! ## Localized-field resolver (utils/localize.ts) -/

/-- The `{ en, ar }` text pair.  The TS interface declares both fields as
`string`, but `localize` accesses them through `as any` and handles absent
fields, so the embedding makes each field optional (`none` = `undefined`). -/
structure LocalizedText where
  en : Option String
  ar : Option String
deriving DecidableEq

/-- Field access `text[lang]`. -/
def LocalizedText.get (t : LocalizedText) : Lang → Option String
  | Lang.en => t.en
  | Lang.ar => t.ar

/-- Embeds `localize`:
`if (!text) return ''; return text[lang] ?? text.en ?? ''`.
`Option.orElse`/`getD` model `??`, which falls through only on
`null`/`undefined`, never on the empty string. -/
def localize (text : Option LocalizedText) (lang : Lang) : String :=
  match text with
  | none => ""
  | some t => ((t.get lang).orElse (fun _ => t.en)).getD ""

/-! ## Translation table and lookup (utils/translations.ts)

The source defines one object with an `en` record and an `ar` record over
the same closed key set, and
`useTranslation(language).t = (key) => translations[language][key] || translations.en[key]`. -/

/-- The closed set of translation keys, `keyof typeof translations.en`. -/
inductive TKey
  | home | portfolio | about | services | contact
  | title | subtitle
  | heroTitle | heroSubtitle | seeMyWork | hireMe
  | aboutTitle | aboutDescription | experience | education | skills
  | servicesTitle | servicesSubtitle
  | logoDesign | logoDesc | branding | brandingDesc
  | printDesign | printDesc | uiuxDesign | uiuxDesc
  | portfolioTitle | portfolioSubtitle | allProjects | logos | posters | viewProject
  | testimonialsTitle
  | contactTitle | contactSubtitle | name | email | message | sendMessage
  | followMe | allRightsReserved
  | english | arabic
deriving DecidableEq

/-- The `translations.en` record. -/
def translationsEn : TKey → String
  | .home => "Home"
  | .portfolio => "Portfolio"
  | .about => "About"
  | .services => "Services"
  | .contact => "Contact"
  | .title => "Eng.EmadAlddine"
  | .subtitle => "Senior Graphic Designer"
  | .heroTitle => "Creative Design Solutions"
  | .heroSubtitle => "Transforming ideas into impactful visual experiences with 9+ years of expertise"
  | .seeMyWork => "See My Work"
  | .hireMe => "Hire Me"
  | .aboutTitle => "About Me"
  | .aboutDescription => "Creative and experienced Branding and Logo Designer with over 9 years of expertise in developing impactful visual identities. Skilled in managing design teams, fostering collaboration, and ensuring the successful execution of creative projects."
  | .experience => "Experience"
  | .education => "Education"
  | .skills => "Skills"
  | .servicesTitle => "My Services"
  | .servicesSubtitle => "Professional design solutions tailored to your needs"
  | .logoDesign => "Logo Design"
  | .logoDesc => "Creating memorable and impactful brand identities"
  | .branding => "Branding"
  | .brandingDesc => "Complete brand identity development and guidelines"
  | .printDesign => "Print Design"
  | .printDesc => "Professional printing materials and marketing collateral"
  | .uiuxDesign => "UI/UX Design"
  | .uiuxDesc => "User-centered interface and experience design"
  | .portfolioTitle => "My Portfolio"
  | .portfolioSubtitle => "Showcasing creative excellence across various design disciplines"
  | .allProjects => "All Projects"
  | .logos => "Logos"
  | .posters => "Posters"
  | .viewProject => "View Project"
  | .testimonialsTitle => "What Our Customers Say"
  | .contactTitle => "Get In Touch"
  | .contactSubtitle => "Let\x27s discuss your next project"
  | .name => "Name"
  | .email => "Email"
  | .message => "Message"
  | .sendMessage => "Send Message"
  | .followMe => "Follow Me"
  | .allRightsReserved => "All rights reserved"
  | .english => "English"
  | .arabic => "العربية"

/-- The `translations.ar` record. -/
def translationsAr : TKey → String
  | .home => "الرئيسية"
  | .portfolio => "المعرض"
  | .about => "نبذة عني"
  | .services => "الخدمات"
  | .contact => "التواصل"
  | .title => "م.عماد الدين"
  | .subtitle => "مصمم جرافيك أول"
  | .heroTitle => "حلول تصميم إبداعية"
  | .heroSubtitle => "تحويل الأفكار إلى تجارب بصرية مؤثرة بخبرة تزيد عن 9 سنوات"
  | .seeMyWork => "شاهد أعمالي"
  | .hireMe => "وظفني"
  | .aboutTitle => "نبذة عني"
  | .aboutDescription => "مصمم علامات تجارية وشعارات مبدع وذو خبرة تزيد عن 9 سنوات في تطوير الهويات البصرية المؤثرة. ماهر في إدارة فرق التصميم وتعزيز التعاون وضمان التنفيذ الناجح للمشاريع الإبداعية."
  | .experience => "الخبرة"
  | .education => "التعليم"
  | .skills => "المهارات"
  | .servicesTitle => "خدماتي"
  | .servicesSubtitle => "حلول تصميم احترافية مصممة خصيصاً لاحتياجاتك"
  | .logoDesign => "تصميم الشعارات"
  | .logoDesc => "إنشاء هويات تجارية لا تُنسى ومؤثرة"
  | .branding => "العلامة التجارية"
  | .brandingDesc => "تطوير الهوية التجارية الكاملة والإرشادات"
  | .printDesign => "التصميم الطباعي"
  | .printDesc => "مواد طباعة احترافية ومواد تسويقية"
  | .uiuxDesign => "تصميم واجهات المستخدم"
  | .uiuxDesc => "تصميم واجهات وتجارب مستخدم محورية"
  | .portfolioTitle => "معرض أعمالي"
  | .portfolioSubtitle => "عرض التميز الإبداعي عبر مختلف تخصصات التصميم"
  | .allProjects => "جميع المشاريع"
  | .logos => "الشعارات"
  | .posters => "الملصقات"
  | .viewProject => "عرض المشروع"
  | .testimonialsTitle => "ماذا يقول عملاؤنا"
  | .contactTitle => "تواصل معي"
  | .contactSubtitle => "لنناقش مشروعك القادم"
  | .name => "الاسم"
  | .email => "البريد الإلكتروني"
  | .message => "الرسالة"
  | .sendMessage => "إرسال الرسالة"
  | .followMe => "تابعني"
  | .allRightsReserved => "جميع الحقوق محفوظة"
  | .english => "English"
  | .arabic => "العربية"

/-- JS property access `translations[language][key]`, `Option`-valued to model
that an object access can in principle yield `undefined`; in the concrete
table every key is present in both records. -/
def translationsGet : Lang → TKey → Option String
  | Lang.en, k => some (translationsEn k)
  | Lang.ar, k => some (translationsAr k)

/-- JS `a || b` on nullable strings: the left operand when it is truthy
(present and non-empty), otherwise the right operand. -/
def jsOrStr (a b : Option String) : Option String :=
  match a with
  | some s => if s = "" then b else some s
  | none => b

/-- The lookup combinator of `useTranslation`, over an arbitrary table:
`(key) => table[language][key] || table.en[key]`. -/
def tLookupGen (tab : Lang → TKey → Option String) (language : Lang) (key : TKey) :
    Option String :=
  jsOrStr (tab language key) (tab Lang.en key)

/-- The lookup `t` returned by `useTranslation(language)`, over the concrete
static table. -/
def tLookup (language : Lang) (key : TKey) : Option String :=
  tLookupGen translationsGet language key

/-! ## Slide repetition (ProjectCard.tsx and the project-details page) -/

/-- Embeds `buildRepeatedSlides`:
`const base = images && images.length > 0 ? images : [];
 return Array.from({ length: times }).flatMap(() => base);` -/
def buildRepeatedSlides (images : List String) (times : Nat) : List String :=
  let base := if images.length > 0 then images else []
  (List.range times).flatMap (fun _ => base)

/-! ## Viewport reveal tracker (hooks/useInView.ts)

The hook sets `inView` from an `IntersectionObserver` callback:
on an intersecting entry it sets `inView` to true and, when `once`,
unobserves the element; on a non-intersecting entry it clears `inView`
only when not `once`. -/

/-- The per-element tracker state: the `inView` React state plus whether the
element is still observed (after `io.unobserve` no further entries are
delivered for it). -/
structure RevealState where
  inView : Bool
  observing : Bool
deriving DecidableEq

/-- One intersection entry for the element: it entered the viewport
(`isIntersecting`) or left it. -/
inductive ViewEvent
  | enter
  | leave
deriving DecidableEq

/-- State right after the effect binds the element:
`useState(false)` and `io.observe(el)`. -/
def revealBind : RevealState := { inView := false, observing := true }

/-- Embeds the observer callback for one delivered entry.  An unobserved
element receives no entries, so the state is unchanged then. -/
def revealStep (once : Bool) (s : RevealState) (e : ViewEvent) : RevealState :=
  if s.observing then
    match e with
    | ViewEvent.enter => { inView := true, observing := !once }
    | ViewEvent.leave => if once then s else { s with inView := false }
  else s

/-- Runs a sequence of delivered intersection entries. -/
def revealRun (once : Bool) (s : RevealState) (es : List ViewEvent) : RevealState :=
  es.foldl (revealStep once) s

/-! ## Scroll threshold tracker (hooks/useScrollTrigger.ts)

`onScroll` schedules at most one `requestAnimationFrame` callback at a time
(guarded by the `ticking` ref); the callback reads `scrollY`, sets
`triggered := y > threshold` and clears `ticking`.  The effect calls
`onScroll()` once on activation, adds the scroll listener, and the cleanup
removes the scroll listener only — it does not cancel a pending frame. -/

/-- The tracker state: the `triggered` React state, the `ticking` ref,
whether the scroll listener is still attached, and whether an animation
frame callback is scheduled but not yet run. -/
structure ScrollState where
  triggered : Bool
  ticking : Bool
  bound : Bool
  pending : Bool
deriving DecidableEq

/-- The host events the tracker reacts to: a scroll notification, the next
animation frame (carrying the scroll position read at that point), and the
effect cleanup (`removeEventListener` only). -/
inductive ScrollEvent
  | scroll
  | frame (y : Nat)
  | unbind
deriving DecidableEq

/-- State right after activation: `useState(false)`, `ticking.current = false`,
then the initial `onScroll()` call (which sets `ticking` and schedules a
frame) and `addEventListener`. -/
def scrollActivate : ScrollState :=
  { triggered := false, ticking := true, bound := true, pending := true }

/-- Embeds one event.  A scroll notification reaches the handler only while
the listener is attached and is dropped while `ticking`; the frame callback
runs whenever it was scheduled — removal of the scroll listener does not
cancel it; the cleanup clears only `bound`. -/
def scrollStep (threshold : Nat) (s : ScrollState) : ScrollEvent → ScrollState
  | ScrollEvent.scroll =>
      if s.bound then
        if s.ticking then s
        else { s with ticking := true, pending := true }
      else s
  | ScrollEvent.frame y =>
      if s.pending then
        { s with triggered := decide (y > threshold), ticking := false, pending := false }
      else s
  | ScrollEvent.unbind => { s with bound := false }

/-- Runs a sequence of host events. -/
def scrollRun (threshold : Nat) (s : ScrollState) (es : List ScrollEvent) : ScrollState :=
  es.foldl (scrollStep threshold) s

/-! ## Static project data and lookup (data/projects.ts) -/

/-- `type ProjectCategory = 'logos' | 'branding' | 'print' | 'uiux'`. -/
inductive ProjectCategory
  | logos
  | branding
  | print
  | uiux
deriving DecidableEq

/-- The `Project` record.  `id` is a JS number used as a route parameter, so
the embedding takes it as an integer; `comments` is optional. -/
structure Project where
  id : Int
  title : LocalizedText
  description : LocalizedText
  category : ProjectCategory
  tags : List String
  images : List String
  comments : Option (List LocalizedText)
deriving DecidableEq

/-- The static `projects` dataset. -/
def projects : List Project :=
  [ { id := 1
    , title := { en := some "Logo Brand & Identity For Ekleel Alenayah Medical Co."
               , ar := some "شعار وهوية بصرية لشركة إكليل العناية الطبية" }
    , description := { en := some "Luxury medical brand visual identity"
                     , ar := some "هوية بصرية فاخرة لعلامة طبية" }
    , category := ProjectCategory.branding
    , tags := ["Medica", "Luxury", "Branding"]
    , images := ["https://mir-s3-cdn-cf.behance.net/project_modules/fs_webp/5d60ca214380481.675743f089720.jpeg"]
    , comments := some
        [ { en := some "Professional, on-time delivery and a refined brand system. Great collaboration."
          , ar := some "احترافية وتسليم في الوقت المناسب وهوية علامة متقنة. تعاون رائع." }
        , { en := some "Our medical brand finally looks premium and trustworthy."
          , ar := some "علامتنا الطبية أصبحت تبدو فاخرة وجديرة بالثقة." } ] }
  , { id := 2
    , title := { en := some "Caesar Restaurant Logo Brand"
               , ar := some "تصميم شعار سلسلة مطاعم القيصر" }
    , description := { en := some "Modern logo designs for restaurant chain"
                     , ar := some "تصاميم شعارات عصرية لسلسلة مطاعم" }
    , category := ProjectCategory.logos
    , tags := ["Logo", "Food", "Modern"]
    , images := ["https://mir-s3-cdn-cf.behance.net/project_modules/fs_webp/60a714214380481.675743f084bea.jpeg"]
    , comments := some
        [ { en := some "The new logo boosted our brand recognition. Guests love it!"
          , ar := some "الشعار الجديد عزز تميّزنا. الزبائن أحبّوه!" } ] }
  , { id := 3
    , title := { en := some "Balsam Taiba Medical Co. Identity Design"
               , ar := some "تصميم شعار وهوية شركة بلسم طيبة الطبية" }
    , description := { en := some "Complete brand identity package for tech company"
                     , ar := some "حزمة هوية تجارية كاملة لشركة تقنية" }
    , category := ProjectCategory.branding
    , tags := ["branding", "Logo", "Guidelines"]
    , images := ["https://mir-s3-cdn-cf.behance.net/project_modules/fs_webp/3ae409214380481.675743f08c104.jpeg"]
    , comments := some
        [ { en := some "Clear guidelines and a strong identity we can scale with."
          , ar := some "إرشادات واضحة وهوية قوية يمكننا التوسع بها." } ] }
  , { id := 4
    , title := { en := some "Jawaher Al Alamia Exchange"
               , ar := some "تصميم شعار جواهر العالمية للصرافة" }
    , description := { en := some "Expert Logo demonstrates simplicity and artistic customer touches"
                     , ar := some "تصميم احترافي يتميز بالبساطة وتظهر فيه لمسات العميل" }
    , category := ProjectCategory.logos
    , tags := ["Ai/Ps", "Brand", "Logo Design"]
    , images := ["https://mir-s3-cdn-cf.behance.net/project_modules/fs_webp/baa953214380481.675743f08b86f.jpeg"]
    , comments := some
        [ { en := some "Elegant and memorable—exactly what we wanted."
          , ar := some "أنيق ولا ينسى—تماماً ما أردناه." } ] }
  , { id := 5
    , title := { en := some "Logo Brand & Identity For Kahraman & Zapheer Jewels Co."
               , ar := some "شعار وهوية بصرية لشركة مجوهرات كهرمان وزفير" }
    , description := { en := some "Luxury medical brand visual identity"
                     , ar := some "هوية بصرية فاخرة لعلامة طبية" }
    , category := ProjectCategory.branding
    , tags := ["Gold", "Luxury", "Branding"]
    , images := ["https://mir-s3-cdn-cf.behance.net/project_modules/fs_webp/699a54214380481.675743f087224.jpeg"]
    , comments := some
        [ { en := some "Premium look that resonates with our jewelry audience."
          , ar := some "مظهر فاخر ينسجم مع جمهور المجوهرات لدينا." } ] }
  , { id := 6
    , title := { en := some "Al Khattabi Press Logo"
               , ar := some "شعار مطابع الخطابي" }
    , description := { en := some "Innovative logo for Printing Press startups"
                     , ar := some "شعار مبتكر لشركة طباعة" }
    , category := ProjectCategory.logos
    , tags := ["Printing", "Startup", "Materials"]
    , images := ["https://mir-s3-cdn-cf.behance.net/project_modules/fs_webp/12d4c7214380481.675743f08a857.jpeg"]
    , comments := some
        [ { en := some "Simple, smart, and highly printable across materials."
          , ar := some "بسيط وذكي وقابل للطباعة على مختلف المواد." } ] }
  , { id := 7
    , title := { en := some "Bahaa Silver Logo Design"
               , ar := some "تصميم شعار شركة بهاء الفضة" }
    , description := { en := some "Creative Brand Logo by typography"
                     , ar := some "شعار علامة تجارية إبداعي بطريقة التايبوجرافي" }
    , category := ProjectCategory.print
    , tags := ["Gold & Silver", "Typography", "Layout"]
    , images := ["https://mir-s3-cdn-cf.behance.net/project_modules/fs_webp/8d1d60214380481.675743f07ecfa.jpeg"]
    , comments := some
        [ { en := some "Typography-led concept that stands out."
          , ar := some "مفهوم قائم على التايبوغرافي يبرز بقوة." } ] }
  , { id := 8
    , title := { en := some "Jenan Yemeni Hony Logo Design"
               , ar := some "تصميم شعار شركة جنان للعسل اليمني" }
    , description := { en := some "Modern commerce branding design"
                     , ar := some "تصميم هوية تجارية عصرية" }
    , category := ProjectCategory.branding
    , tags := ["Commerce", "Branding", "Logo"]
    , images := ["https://mir-s3-cdn-cf.behance.net/project_modules/fs_webp/9a450c214380481.675743f081bb3.jpeg"]
    , comments := some
        [ { en := some "Captured our product story beautifully."
          , ar := some "عكس قصة منتجنا بشكل جميل." } ] }
  , { id := 9
    , title := { en := some "Social Media Adv"
               , ar := some "تصاميم السوشال ميديا" }
    , description := { en := some "Expert social media design"
                     , ar := some "تصميم احترافي لوسائل التواصل الاجتماعي" }
    , category := ProjectCategory.branding
    , tags := ["Ai/Ps", "Social", "Design"]
    , images := ["https://mir-s3-cdn-cf.behance.net/project_modules/fs_webp/bed92e214380481.675743f08c922.jpeg"]
    , comments := some
        [ { en := some "Engagement went up after the new creatives."
          , ar := some "زاد التفاعل بعد التصاميم الجديدة." } ] }
  , { id := 10
    , title := { en := some "Annual Report Design"
               , ar := some "تصميم التقرير السنوي" }
    , description := { en := some "Professional annual report layout and design"
                     , ar := some "تخطيط وتصميم تقرير سنوي احترافي" }
    , category := ProjectCategory.print
    , tags := ["Print", "Layout", "Corporate"]
    , images := ["https://mir-s3-cdn-cf.behance.net/project_modules/fs_webp/6c98f5214380481.675743f092c71.jpeg"]
    , comments := some
        [ { en := some "Clear structure, premium layouts, and on-time delivery."
          , ar := some "هيكل واضح وتخطيطات فاخرة وتسليم في الوقت." } ] }
  ]

/-- Embeds `getProjectById = (id) => projects.find((p) => p.id === id)`. -/
def getProjectById (id : Int) : Option Project :=
  projects.find? (fun p => p.id == id)

/-- A two-row table with an explicitly empty Arabic entry, used to exercise
the falsy-fallback behaviour of the lookup combinator. -/
def demoTab : Lang → TKey → Option String
  | Lang.en, _ => some "Home"
  | Lang.ar, _ => some ""

/-! ## Helper lemmas -/

/-- Flat-mapping a constant list over `range n` is the `n`-fold
self-concatenation. -/
lemma range_flatMap_const (l : List String) (n : Nat) :
    (List.range n).flatMap (fun _ => l) = (List.replicate n l).flatten := by
  induction n with
  | zero => rfl
  | succ n ih =>
      rw [List.range_succ, List.flatMap_append, ih, List.replicate_succ', List.flatten_append]
      simp

/-- Under the `once` policy, a delivered entry never clears `inView`. -/
lemma revealStep_once_keeps_inView (s : RevealState) (e : ViewEvent)
    (h : s.inView = true) : (revealStep true s e).inView = true := by
  cases hs : s.observing <;> cases e <;> simp [revealStep, hs, h]

/-- With the listener removed and no frame pending, every host event leaves
the scroll tracker state unchanged. -/
lemma scrollStep_unbound_quiescent (threshold : Nat) (s : ScrollState)
    (hb : s.bound = false) (hp : s.pending = false) (e : ScrollEvent) :
    scrollStep threshold s e = s := by
  cases e with
  | scroll => simp [scrollStep, hb]
  | frame y => simp [scrollStep, hp]
  | unbind => cases s; simp_all [scrollStep]

/-! ## Claims -/

/-- C8: from any preference state, toggling the theme twice restores the
state, and likewise for the language; each toggle flips its field between
its two values and leaves the other field alone. -/
theorem c8_toggle_round_trip (s : PrefState) :
    toggleTheme (toggleTheme s) = s ∧
    toggleLanguage (toggleLanguage s) = s ∧
    (toggleTheme { theme := Theme.light, language := s.language }).theme = Theme.dark ∧
    (toggleTheme { theme := Theme.dark, language := s.language }).theme = Theme.light ∧
    (toggleLanguage { theme := s.theme, language := Lang.en }).language = Lang.ar ∧
    (toggleLanguage { theme := s.theme, language := Lang.ar }).language = Lang.en := by
  obtain ⟨t, l⟩ := s
  cases t <;> cases l <;> exact ⟨rfl, rfl, rfl, rfl, rfl, rfl⟩

/-- C5: for any item list and positive repeat count, `buildRepeatedSlides`
returns the repeat-count-fold self-concatenation of the list (order kept
within each copy), and the empty list yields the empty result for any
count; the embedding is a pure function of its arguments, so the input list
is not mutated. -/
theorem c5_repeated_slides (items : List String) (times : Nat) (_h : 0 < times) :
    buildRepeatedSlides items times = (List.replicate times items).flatten ∧
    buildRepeatedSlides [] times = [] := by
  have hmain : ∀ l : List String,
      buildRepeatedSlides l times
        = (List.replicate times (if l.length > 0 then l else [])).flatten := by
    intro l
    unfold buildRepeatedSlides
    exact range_flatMap_const _ times
  constructor
  · rcases items with _ | ⟨a, l⟩
    · simpa using hmain []
    · simpa using hmain (a :: l)
  · simpa using hmain []

/-- Witness for C5 at `["a", "b"]` and `times = 3`. -/
theorem c5_repeated_slides_witness :
    0 < 3 ∧ buildRepeatedSlides ["a", "b"] 3 = ["a", "b", "a", "b", "a", "b"] :=
  ⟨Nat.succ_pos 2, ((c5_repeated_slides ["a", "b"] 3 (Nat.succ_pos 2)).1).trans (by decide)⟩

/-- C3: `localize` returns the language field whenever it is present (even
when it is the empty string), otherwise the `en` field when present,
otherwise the empty string; and an absent (`null`/`undefined`) text value
yields the empty string.  The embedding is a total function, so no call
throws. -/
theorem c3_localize_resolution (t : LocalizedText) (l : Lang) :
    (∀ s, t.get l = some s → localize (some t) l = s) ∧
    (t.get l = none → ∀ s, t.en = some s → localize (some t) l = s) ∧
    (t.get l = none → t.en = none → localize (some t) l = "") ∧
    localize none l = "" := by
  refine ⟨?_, ?_, ?_, rfl⟩
  · intro s hs
    simp [localize, hs, Option.orElse]
  · intro h0 s hs
    simp [localize, h0, hs, Option.orElse]
  · intro h0 h1
    simp [localize, h0, h1, Option.orElse]

/-- Witness for C3: an explicitly empty Arabic field is returned as-is, and
an absent text value yields the empty string. -/
theorem c3_localize_resolution_witness :
    localize (some { en := some "x", ar := some "" }) Lang.ar = "" ∧
    localize none Lang.ar = "" :=
  ⟨(c3_localize_resolution { en := some "x", ar := some "" } Lang.ar).1 "" rfl,
   (c3_localize_resolution { en := some "x", ar := some "" } Lang.ar).2.2.2⟩

/-- C4: over the static table, the lookup returned by `useTranslation`
yields a present (non-null) string for every known key in both languages;
and for the lookup combinator over any table, an absent language-specific
entry makes the result the English entry for that key. -/
theorem c4_translation_total_fallback :
    (∀ (l : Lang) (k : TKey), (tLookup l k).isSome = true) ∧
    (∀ (tab : Lang → TKey → Option String) (l : Lang) (k : TKey),
      tab l k = none → tLookupGen tab l k = tab Lang.en k) := by
  constructor
  · intro l k
    cases l <;> cases k <;> rfl
  · intro tab l k h
    simp [tLookupGen, jsOrStr, h]

/-- Witness for C4 at the `home` key and an everywhere-absent table. -/
theorem c4_translation_total_fallback_witness :
    (tLookup Lang.ar TKey.home).isSome = true ∧
    tLookupGen (fun _ _ => none) Lang.ar TKey.home = none :=
  ⟨c4_translation_total_fallback.1 Lang.ar TKey.home,
   c4_translation_total_fallback.2 (fun _ _ => none) Lang.ar TKey.home rfl⟩

/-- C10: the `||` in the translation lookup falls back to English on any
falsy language entry, in particular on an explicitly empty string; whereas
`localize` returns an explicitly-present empty-string field without falling
back. -/
theorem c10_falsy_fallback_contrast :
    (∀ (tab : Lang → TKey → Option String) (l : Lang) (k : TKey),
      tab l k = some "" → tLookupGen tab l k = tab Lang.en k) ∧
    (∀ (t : LocalizedText) (l : Lang), t.get l = some "" → localize (some t) l = "") := by
  constructor
  · intro tab l k h
    simp [tLookupGen, jsOrStr, h]
  · intro t l h
    simp [localize, h, Option.orElse]

/-- Witness for C10: on a table whose Arabic entry is the empty string the
lookup returns the English entry, while `localize` on an empty Arabic field
returns the empty string. -/
theorem c10_falsy_fallback_contrast_witness :
    tLookupGen demoTab Lang.ar TKey.home = some "Home" ∧
    localize (some { en := some "Home", ar := some "" }) Lang.ar = "" :=
  ⟨c10_falsy_fallback_contrast.1 demoTab Lang.ar TKey.home rfl,
   c10_falsy_fallback_contrast.2 { en := some "Home", ar := some "" } Lang.ar rfl⟩

/-- C6: with `once = true`, once `inView` is true no sequence of delivered
intersection entries ever clears it; with `once = false`, from a freshly
bound element the entered/left/entered sequence ends with `inView = true`
after an intermediate `inView = false`. -/
theorem c6_reveal_once_policy (s : RevealState) (es : List ViewEvent) (h : s.inView = true) :
    (revealRun true s es).inView = true ∧
    (revealRun false revealBind [ViewEvent.enter, ViewEvent.leave, ViewEvent.enter]).inView = true ∧
    (revealRun false revealBind [ViewEvent.enter, ViewEvent.leave]).inView = false := by
  refine ⟨?_, by decide, by decide⟩
  induction es generalizing s with
  | nil => exact h
  | cons e es ih => exact ih _ (revealStep_once_keeps_inView s e h)

/-- Witness for C6: a revealed element stays revealed across a leave entry. -/
theorem c6_reveal_once_policy_witness :
    (revealRun true { inView := true, observing := true } [ViewEvent.leave]).inView = true :=
  (c6_reveal_once_policy { inView := true, observing := true } [ViewEvent.leave] rfl).1

/-- C9 counterexample: the cleanup removes only the scroll listener and does
not cancel the already-scheduled animation frame, so from the freshly
activated tracker (which has a frame pending) the sequence unbind-then-frame
still changes `triggered` after the unbind. -/
theorem c9_counterexample :
    (scrollRun 10 scrollActivate [ScrollEvent.unbind]).triggered = false ∧
    (scrollRun 10 scrollActivate [ScrollEvent.unbind, ScrollEvent.frame 100]).triggered = true := by
  decide

/-- C9 amended: after unbind, no new re-evaluation can be scheduled — with no
frame pending the state never changes again under any event sequence — but a
re-evaluation already pending at unbind still runs once, setting `triggered`
from the scroll position and clearing the pending flag. -/
theorem c9_amended_unbind (threshold : Nat) (s : ScrollState) (es : List ScrollEvent)
    (hb : s.bound = false) :
    (s.pending = false → scrollRun threshold s es = s) ∧
    (∀ y, s.pending = true →
      (scrollStep threshold s (ScrollEvent.frame y)).triggered = decide (y > threshold) ∧
      (scrollStep threshold s (ScrollEvent.frame y)).pending = false) := by
  constructor
  · intro hp
    induction es with
    | nil => rfl
    | cons e es ih =>
        calc scrollRun threshold s (e :: es)
            = scrollRun threshold (scrollStep threshold s e) es := rfl
          _ = scrollRun threshold s es := by
                rw [scrollStep_unbound_quiescent threshold s hb hp e]
          _ = s := ih
  · intro y hp
    constructor <;> simp [scrollStep, hp]

/-- Witness for the amended C9: a quiescent unbound tracker ignores a scroll
notification, and a pending frame after unbind still sets `triggered`. -/
theorem c9_amended_unbind_witness :
    scrollRun 10 { triggered := false, ticking := false, bound := false, pending := false }
      [ScrollEvent.scroll]
      = { triggered := false, ticking := false, bound := false, pending := false } ∧
    (scrollStep 10 { triggered := false, ticking := true, bound := false, pending := true }
      (ScrollEvent.frame 100)).triggered = true :=
  ⟨(c9_amended_unbind 10
      { triggered := false, ticking := false, bound := false, pending := false }
      [ScrollEvent.scroll] rfl).1 rfl,
   by
    have h := (c9_amended_unbind 10
      { triggered := false, ticking := true, bound := false, pending := true } [] rfl).2 100 rfl
    exact h.1.trans (by decide)⟩

/-- C7: `getProjectById` is a total function; a returned record has the
requested id, an id carried by some project is found, and an id carried by
no project returns `none`. -/
theorem c7_lookup_total (id : Int) :
    (∀ p, getProjectById id = some p → p.id = id) ∧
    ((∃ p ∈ projects, p.id = id) → (getProjectById id).isSome = true) ∧
    ((∀ p ∈ projects, p.id ≠ id) → getProjectById id = none) := by
  refine ⟨?_, ?_, ?_⟩
  · intro p hp
    have := List.find?_some hp
    simpa using this
  · rintro ⟨p, hp, hid⟩
    rw [getProjectById, List.find?_isSome]
    exact ⟨p, hp, by simpa using hid⟩
  · intro h
    rw [getProjectById, List.find?_eq_none]
    intro p hp
    simpa using h p hp

/-- Witness for C7: id 1 is found, id 999 is explicitly absent. -/
theorem c7_lookup_total_witness :
    (getProjectById 1).isSome = true ∧ getProjectById 999 = none :=
  ⟨(c7_lookup_total 1).2.1
      ⟨projects.head (by unfold projects; exact List.cons_ne_nil _ _), List.head_mem _, rfl⟩,
   (c7_lookup_total 999).2.2 (by decide)⟩

/-- C1 counterexample: the mount effect stores any non-empty persisted
string without validating it against the enum, so the persisted value
"purple" yields in-memory theme "purple" (and language "purple"), not the
defaults the claim requires for an invalid entry. -/
theorem c1_counterexample :
    ("purple" ≠ "light" ∧ "purple" ≠ "dark" ∧ "purple" ≠ "en" ∧ "purple" ≠ "ar") ∧
    (initState (some "purple") (some "purple")).1 ≠ "light" ∧
    (initState (some "purple") (some "purple")).2 ≠ "en" := by
  decide

/-- C1 amended: each field independently falls back to its default exactly
when its persisted entry is absent or the empty string (JS falsiness); any
other persisted string — valid or not — is stored as-is. -/
theorem c1_amended_init (st sl : Option String) :
    ((st = none ∨ st = some "") → (initState st sl).1 = "light") ∧
    ((sl = none ∨ sl = some "") → (initState st sl).2 = "en") ∧
    (∀ s, s ≠ "" → (initState (some s) sl).1 = s) ∧
    (∀ s, s ≠ "" → (initState st (some s)).2 = s) := by
  refine ⟨?_, ?_, ?_, ?_⟩
  · rintro (rfl | rfl) <;> rfl
  · rintro (rfl | rfl) <;> rfl
  · intro s hs
    simp [initState, loadPref, hs]
  · intro s hs
    simp [initState, loadPref, hs]

/-- Witness for the amended C1: absent and empty entries fall back to the
defaults; the stored string "dark" is kept, independently of the other
field. -/
theorem c1_amended_init_witness :
    (initState none (some "")).1 = "light" ∧
    (initState none (some "")).2 = "en" ∧
    (initState (some "dark") none).1 = "dark" :=
  ⟨(c1_amended_init none (some "")).1 (Or.inl rfl),
   (c1_amended_init none (some "")).2.1 (Or.inr rfl),
   (c1_amended_init (some "dark") none).2.2.1 "dark" (by decide)⟩

/-- C2 counterexample: neither the mount effect nor the persisting effect
guards its storage calls, so a thrown storage operation propagates out of
the effect instead of being swallowed. -/
theorem c2_counterexample :
    loadEffect (Except.error "SecurityError") (Except.ok none)
      = Except.error "SecurityError" ∧
    persistEffect (Except.error "QuotaExceededError") (Except.ok ())
      = Except.error "QuotaExceededError" :=
  ⟨rfl, rfl⟩

/-- C2 amended: a storage failure propagates out of the effect (a failing
first read or write short-circuits the rest); because both reads happen
before either state update, a failing read leaves the in-memory state at
the defaults, which remain authoritative. -/
theorem c2_amended_failure_propagation (e : String) (gl : Except String (Option String))
    (sl : Except String Unit) :
    loadEffect (Except.error e) gl = Except.error e ∧
    loadEffect (Except.ok none) (Except.error e) = Except.error e ∧
    stateAfterLoad (Except.error e) gl = (defaultTheme, defaultLanguage) ∧
    stateAfterLoad (Except.ok none) (Except.error e) = (defaultTheme, defaultLanguage) ∧
    persistEffect (Except.error e) sl = Except.error e :=
  ⟨rfl, rfl, rfl, rfl, rfl⟩

end Portfolio
